import Mathlib

/-!
Shallow embedding of `src/Thermostat.py` (CS 350 smart-thermostat prototype).

The Python program drives two PWM LEDs (red = heat channel, blue = cool
channel) from a three-state thermostat state machine, alternates an LCD
second line on a 2-second period, and emits a UART telemetry line every
30 seconds.  Times are modelled as rationals, temperatures as rationals
(`float("nan")` on a failed read is modelled as `Option`), and the two
PWM LEDs as a three-valued output state (off / solid on / fading).
-/

namespace ThermostatModel

/-- The three thermostat modes.  Source: `OFF, HEAT, COOL = "off", "heat", "cool"`. -/
inductive Mode where
  | off
  | heat
  | cool
deriving DecidableEq, Repr

/-- `STATE_ORDER = [OFF, HEAT, COOL]`. -/
def STATE_ORDER : List Mode := [Mode.off, Mode.heat, Mode.cool]

/-- The lowercase string each mode prints as (the values of the Python
constants `OFF`, `HEAT`, `COOL`). -/
def modeName : Mode → String
  | Mode.off => "off"
  | Mode.heat => "heat"
  | Mode.cool => "cool"

/-- Observable state of one PWM LED channel: fully off, held at full value
(`led.value = 1.0`), or running a continuous background pulse
(`led.pulse(...)`). -/
inductive LedState where
  | ledOff
  | solidOn
  | fade
deriving DecidableEq, Repr

/-- `SETPOINT_F_DEFAULT = 72`. -/
def SETPOINT_F_DEFAULT : ℤ := 72

/-- `LCD_ALT_PERIOD = 2.0` seconds between the alternating second-line views. -/
def LCD_ALT_PERIOD : ℚ := 2

/-- `UART_PERIOD = 30.0` seconds between UART telemetry lines. -/
def UART_PERIOD : ℚ := 30

/-- The mutable state of the `Thermostat` object that the control loop
reads and writes: `state_idx`, `setpoint_f`, `_last_uart`, `_last_alt`,
`_alt_flag`, and the two LED channels. -/
structure State where
  state_idx : ℕ
  setpoint_f : ℤ
  last_uart : ℚ
  last_alt : ℚ
  alt_flag : Bool
  red : LedState
  blue : LedState
deriving DecidableEq, Repr

/-- The state set up by `Thermostat.__init__`: `state_idx = 0` (OFF),
`setpoint_f = SETPOINT_F_DEFAULT`, `_last_uart = 0.0`, `_last_alt = 0.0`,
`_alt_flag = False`, both LEDs at `initial_value=0.0`. -/
def initState : State :=
  { state_idx := 0
    setpoint_f := SETPOINT_F_DEFAULT
    last_uart := 0
    last_alt := 0
    alt_flag := false
    red := LedState.ledOff
    blue := LedState.ledOff }

/-- `self.state` property: `STATE_ORDER[self.state_idx]` (the index is kept
below `len(STATE_ORDER)` by `_cycle_mode`; out of range defaults to OFF so
the model stays total). -/
def stateOf (i : ℕ) : Mode := STATE_ORDER.getD i Mode.off

/-- `Thermostat._apply_outputs(current_temp_f)`.  With `current_temp_f is
None` (reduced-information path used on a mode change) it sets solids/off
purely from the state; otherwise it cancels old pulses and drives the LEDs
from the state, the setpoint and the temperature using strict comparisons. -/
def applyOutputs (s : State) (current_temp_f : Option ℚ) : State :=
  match current_temp_f with
  | none =>
    match stateOf s.state_idx with
    | Mode.heat => { s with red := LedState.solidOn, blue := LedState.ledOff }
    | Mode.cool => { s with blue := LedState.solidOn, red := LedState.ledOff }
    | Mode.off => { s with red := LedState.ledOff, blue := LedState.ledOff }
  | some t =>
    match stateOf s.state_idx with
    | Mode.heat =>
      if t < (s.setpoint_f : ℚ) then
        { s with blue := LedState.ledOff, red := LedState.fade }
      else
        { s with blue := LedState.ledOff, red := LedState.solidOn }
    | Mode.cool =>
      if (s.setpoint_f : ℚ) < t then
        { s with red := LedState.ledOff, blue := LedState.fade }
      else
        { s with red := LedState.ledOff, blue := LedState.solidOn }
    | Mode.off => { s with red := LedState.ledOff, blue := LedState.ledOff }

/-- `(self.state_idx + 1) % len(STATE_ORDER)`. -/
def cycleIdx (i : ℕ) : ℕ := (i + 1) % STATE_ORDER.length

/-- `Thermostat._cycle_mode`: advance the state index cyclically, stop both
pulses, then `_apply_outputs(current_temp_f=None)`.  The intermediate
`red.stop(); blue.stop()` is subsumed because the reduced-information
`_apply_outputs` overwrites both channels in every branch. -/
def cycleMode (s : State) : State :=
  applyOutputs { s with state_idx := cycleIdx s.state_idx } none

/-- `Thermostat._sp_up`: raise the setpoint by one. -/
def spUp (s : State) : State := { s with setpoint_f := s.setpoint_f + 1 }

/-- `Thermostat._sp_down`: lower the setpoint by one. -/
def spDown (s : State) : State := { s with setpoint_f := s.setpoint_f - 1 }

/-- The LED part of the `finally` cleanup in `Thermostat.run`:
`red.stop(); blue.stop(); red.off(); blue.off()`. -/
def cleanup (s : State) : State :=
  { s with red := LedState.ledOff, blue := LedState.ledOff }

/-- Errors of the sensor read: wrong payload length, or the I2C transport
raised. -/
inductive SensorError where
  | shortRead
  | busFault
deriving DecidableEq, Repr

/-- `Thermostat._aht20_read_celsius`.  The I2C transaction is modelled by
its outcome: an error, or the list of bytes returned by the 6-byte read.
On 6 bytes the status byte is discarded and the 20-bit temperature field
is extracted exactly as in the source
(`(((data[3] & 0x0F) << 16) | (data[4] << 8) | data[5]) & 0xFFFFF`),
then converted via `tmp_raw * 200.0 / (1 << 20) - 50.0`.  The humidity
field computed by the source is dead code for the returned value and is
omitted. -/
def aht20ReadCelsius (busRead : Except Unit (List ℕ)) : Except SensorError ℚ :=
  match busRead with
  | Except.error _ => Except.error SensorError.busFault
  | Except.ok data =>
    if data.length = 6 then
      let tmp_raw : ℕ :=
        (((data.getD 3 0 &&& 0x0F) <<< 16) ||| ((data.getD 4 0) <<< 8) ||| data.getD 5 0) &&& 0xFFFFF
      Except.ok ((tmp_raw : ℚ) * 200 / 2 ^ 20 - 50)
    else
      Except.error SensorError.shortRead

/-- The caller's conversion in `Thermostat.run`:
`temp_f = temp_c * 9.0/5.0 + 32.0`. -/
def cToF (c : ℚ) : ℚ := c * 9 / 5 + 32

/-- Fixed-point rendering of Python's `f"{x:.1f}"`: the value rounded to
tenths, printed with exactly one digit after the decimal point. -/
def fmt1 (q : ℚ) : String :=
  let n : ℤ := round (q * 10)
  let a : ℕ := n.natAbs
  (if n < 0 then "-" else "") ++ toString (a / 10) ++ "." ++ toString (a % 10)

/-- The telemetry line built by `Thermostat._uart_send`:
`f"{self.state},{current_temp_f:.1f},{self.setpoint_f}\n"`. -/
def uartMsg (m : Mode) (setpoint : ℤ) (t : ℚ) : String :=
  modeName m ++ "," ++ fmt1 t ++ "," ++ toString setpoint ++ "\n"

/-- `Thermostat._uart_send(current_temp_f)`: returns early when no serial
port is open; a failing `write` is caught and logged, so nothing reaches
the transport but no exception escapes.  The result is the line actually
placed on the transport, if any. -/
def uartSend (serPresent writeOk : Bool) (m : Mode) (setpoint : ℤ) (t : ℚ) : Option String :=
  if serPresent then
    if writeOk then some (uartMsg m setpoint t) else none
  else
    none

/-- The temperature block at the top of `Thermostat.run`'s loop:
a successful read is converted to Fahrenheit, a raised exception is caught
and leaves `temp_f = float("nan")` (modelled as `none`). -/
def tempOfSensor (sensor : Except SensorError ℚ) : Option ℚ :=
  match sensor with
  | Except.ok c => some (cToF c)
  | Except.error _ => none

/-- `if not math.isnan(temp_f): self._apply_outputs(temp_f)`. -/
def applyStage (s : State) (temp_f : Option ℚ) : State :=
  match temp_f with
  | some t => applyOutputs s (some t)
  | none => s

/-- The LCD alternation block:
`if now - self._last_alt >= LCD_ALT_PERIOD: self._alt_flag = not self._alt_flag; self._last_alt = now`. -/
def altStage (s : State) (now : ℚ) : State :=
  if LCD_ALT_PERIOD ≤ now - s.last_alt then
    { s with alt_flag := !s.alt_flag, last_alt := now }
  else
    s

/-- The UART block:
`if now - self._last_uart >= UART_PERIOD and not math.isnan(temp_f): self._uart_send(temp_f); self._last_uart = now`. -/
def uartStage (s : State) (temp_f : Option ℚ) (now : ℚ) (serPresent writeOk : Bool) :
    State × Option String :=
  match temp_f with
  | some t =>
    if UART_PERIOD ≤ now - s.last_uart then
      ({ s with last_uart := now },
       uartSend serPresent writeOk (stateOf s.state_idx) s.setpoint_f t)
    else
      (s, none)
  | none => (s, none)

/-- What one loop iteration produced besides the new state: whether a
physical LCD write happened (`_update_lcd` runs only when a sample is
available, and `_lcd_write` only when an LCD is attached), and the line
placed on the UART transport, if any. -/
structure TickResult where
  st : State
  lcdWritten : Bool
  uartLine : Option String
deriving DecidableEq, Repr

/-- One iteration of the `while True` loop in `Thermostat.run`, in source
order: sensor read (failure caught), LED drive when a sample is available,
LCD alternation check, LCD write when a sample is available, UART send when
the period elapsed and a sample is available. -/
def tick (s : State) (sensor : Except SensorError ℚ) (now : ℚ)
    (lcdPresent serPresent writeOk : Bool) : TickResult :=
  { st := (uartStage (altStage (applyStage s (tempOfSensor sensor)) now)
            (tempOfSensor sensor) now serPresent writeOk).1
    lcdWritten := (tempOfSensor sensor).isSome && lcdPresent
    uartLine := (uartStage (altStage (applyStage s (tempOfSensor sensor)) now)
            (tempOfSensor sensor) now serPresent writeOk).2 }

/-- The next mode in the spec's cyclic order OFF→HEAT→COOL→OFF.  Stated
from the spec's words, to be compared with the source's index arithmetic. -/
def nextModeSpec : Mode → Mode
  | Mode.off => Mode.heat
  | Mode.heat => Mode.cool
  | Mode.cool => Mode.off

end ThermostatModel
namespace ThermostatModel

theorem applyOutputs_frame (s : State) (o : Option ℚ) :
    (applyOutputs s o).state_idx = s.state_idx ∧
    (applyOutputs s o).setpoint_f = s.setpoint_f ∧
    (applyOutputs s o).last_uart = s.last_uart ∧
    (applyOutputs s o).last_alt = s.last_alt ∧
    (applyOutputs s o).alt_flag = s.alt_flag := by
  cases o <;> simp only [applyOutputs] <;> rcases h : stateOf s.state_idx <;>
    simp [h] <;> split <;> simp

theorem applyStage_frame (s : State) (o : Option ℚ) :
    (applyStage s o).state_idx = s.state_idx ∧
    (applyStage s o).setpoint_f = s.setpoint_f ∧
    (applyStage s o).last_uart = s.last_uart ∧
    (applyStage s o).last_alt = s.last_alt ∧
    (applyStage s o).alt_flag = s.alt_flag := by
  cases o
  · exact ⟨rfl, rfl, rfl, rfl, rfl⟩
  · exact applyOutputs_frame s _

theorem altStage_frame (s : State) (n : ℚ) :
    (altStage s n).state_idx = s.state_idx ∧
    (altStage s n).setpoint_f = s.setpoint_f ∧
    (altStage s n).last_uart = s.last_uart ∧
    (altStage s n).red = s.red ∧
    (altStage s n).blue = s.blue := by
  unfold altStage
  split <;> simp

theorem tick_alt (s : State) (r : Except SensorError ℚ) (n : ℚ) (a b w : Bool) :
    (tick s r n a b w).st.alt_flag =
      (if LCD_ALT_PERIOD ≤ n - s.last_alt then !s.alt_flag else s.alt_flag) ∧
    (tick s r n a b w).st.last_alt =
      (if LCD_ALT_PERIOD ≤ n - s.last_alt then n else s.last_alt) := by
  unfold tick
  generalize tempOfSensor r = o
  obtain ⟨h1, h2, h3, h4, h5⟩ := applyStage_frame s o
  rcases o with _ | t <;>
    simp only [uartStage, altStage, h4, h5] <;>
    split <;> simp_all <;> split <;> simp_all

theorem tick_uart_time (s : State) (r : Except SensorError ℚ) (n : ℚ) (a b w : Bool) :
    (tick s r n a b w).st.last_uart =
      (if UART_PERIOD ≤ n - s.last_uart ∧ (tempOfSensor r).isSome then n else s.last_uart) := by
  unfold tick
  generalize tempOfSensor r = o
  obtain ⟨h1, h2, h3, h4, h5⟩ := applyStage_frame s o
  rcases o with _ | t <;>
    simp only [uartStage, altStage, Option.isSome] <;>
    split <;> simp_all <;> split <;> simp_all

theorem tick_leds (s : State) (r : Except SensorError ℚ) (n : ℚ) (a b w : Bool) :
    (tick s r n a b w).st.red = (applyStage s (tempOfSensor r)).red ∧
    (tick s r n a b w).st.blue = (applyStage s (tempOfSensor r)).blue := by
  unfold tick
  generalize tempOfSensor r = o
  obtain ⟨g1, g2, g3, g4, g5⟩ := altStage_frame (applyStage s o) n
  rcases o with _ | t <;>
    simp only [uartStage] <;> (try split) <;> simp_all

theorem tick_uartLine (s : State) (r : Except SensorError ℚ) (n : ℚ) (a b w : Bool) :
    (tick s r n a b w).uartLine =
      (match tempOfSensor r with
       | some t =>
         if UART_PERIOD ≤ n - s.last_uart then
           uartSend b w (stateOf s.state_idx) s.setpoint_f t
         else none
       | none => none) := by
  unfold tick
  generalize tempOfSensor r = o
  obtain ⟨h1, h2, h3, h4, h5⟩ := applyStage_frame s o
  obtain ⟨g1, g2, g3, g4, g5⟩ := altStage_frame (applyStage s o) n
  rcases o with _ | t
  · simp_all [uartStage]
  · simp only [uartStage]
    split
    · simp_all
    · rename_i hc
      rw [g3, h3] at hc
      simp [if_neg hc]

theorem tick_lcdWritten (s : State) (r : Except SensorError ℚ) (n : ℚ) (a b w : Bool) :
    (tick s r n a b w).lcdWritten = ((tempOfSensor r).isSome && a) := by
  unfold tick
  rcases tempOfSensor r with _ | t <;> rfl

end ThermostatModel
namespace ThermostatModel

/-- Claim C1: one full-information actuator update drives exactly the
spec's intents: OFF gives both channels off; HEAT gives cool off and heat
Fade when Temperature < Setpoint, SolidOn when Temperature >= Setpoint;
COOL gives heat off and cool Fade when Temperature > Setpoint, SolidOn
when Temperature <= Setpoint (so equality yields SolidOn in both). -/
theorem applyOutputs_intents (s : State) (t : ℚ) :
    (stateOf s.state_idx = Mode.off →
      (applyOutputs s (some t)).red = LedState.ledOff ∧
      (applyOutputs s (some t)).blue = LedState.ledOff) ∧
    (stateOf s.state_idx = Mode.heat →
      (applyOutputs s (some t)).blue = LedState.ledOff ∧
      (t < (s.setpoint_f : ℚ) → (applyOutputs s (some t)).red = LedState.fade) ∧
      ((s.setpoint_f : ℚ) ≤ t → (applyOutputs s (some t)).red = LedState.solidOn)) ∧
    (stateOf s.state_idx = Mode.cool →
      (applyOutputs s (some t)).red = LedState.ledOff ∧
      ((s.setpoint_f : ℚ) < t → (applyOutputs s (some t)).blue = LedState.fade) ∧
      (t ≤ (s.setpoint_f : ℚ) → (applyOutputs s (some t)).blue = LedState.solidOn)) := by
  refine ⟨fun h => ?_, fun h => ?_, fun h => ?_⟩
  · simp [applyOutputs, h]
  · simp only [applyOutputs, h]
    split
    · rename_i hc
      exact ⟨rfl, fun _ => rfl, fun h2 => absurd hc (not_lt.mpr h2)⟩
    · rename_i hc
      exact ⟨rfl, fun h2 => absurd h2 hc, fun _ => rfl⟩
  · simp only [applyOutputs, h]
    split
    · rename_i hc
      exact ⟨rfl, fun _ => rfl, fun h2 => absurd hc (not_lt.mpr h2)⟩
    · rename_i hc
      exact ⟨rfl, fun h2 => absurd h2 hc, fun _ => rfl⟩

/-- Claim C2: after a full-information apply, after a mode change's
reduced-information apply, and after the shutdown LED cleanup, the two
channels are mutually exclusive: with Mode = OFF both are off, and in any
mode at least one of the two channels is off. -/
theorem led_mutual_exclusion (s : State) (t : ℚ) :
    ((stateOf (applyOutputs s (some t)).state_idx = Mode.off →
        (applyOutputs s (some t)).red = LedState.ledOff ∧
        (applyOutputs s (some t)).blue = LedState.ledOff) ∧
      ((applyOutputs s (some t)).red = LedState.ledOff ∨
        (applyOutputs s (some t)).blue = LedState.ledOff)) ∧
    ((stateOf (cycleMode s).state_idx = Mode.off →
        (cycleMode s).red = LedState.ledOff ∧ (cycleMode s).blue = LedState.ledOff) ∧
      ((cycleMode s).red = LedState.ledOff ∨ (cycleMode s).blue = LedState.ledOff)) ∧
    ((stateOf (cleanup s).state_idx = Mode.off →
        (cleanup s).red = LedState.ledOff ∧ (cleanup s).blue = LedState.ledOff) ∧
      ((cleanup s).red = LedState.ledOff ∨ (cleanup s).blue = LedState.ledOff)) := by
  refine ⟨?_, ?_, ⟨fun _ => ⟨rfl, rfl⟩, Or.inl rfl⟩⟩
  · have hidx := (applyOutputs_frame s (some t)).1
    rw [hidx]
    simp only [applyOutputs]
    rcases h : stateOf s.state_idx <;> simp [h] <;> split <;> simp
  · unfold cycleMode
    have hidx := (applyOutputs_frame { s with state_idx := cycleIdx s.state_idx } none).1
    rw [hidx]
    simp only [applyOutputs]
    rcases h : stateOf (cycleIdx s.state_idx) <;> simp [h]

end ThermostatModel

namespace ThermostatModel

/-- Claim C3: on a loop iteration the display alternation flag changes
state iff the elapsed time since the last flip is at least
`LCD_ALT_PERIOD` (2 seconds); the last-flip timestamp is updated exactly
when the flag flips; and over two iterations the flag never flips twice
within an elapsed interval shorter than 4 seconds from the last flip. -/
theorem display_alternation (s : State) (r1 r2 : Except SensorError ℚ)
    (n1 n2 : ℚ) (a1 b1 w1 a2 b2 w2 : Bool) :
    ((tick s r1 n1 a1 b1 w1).st.alt_flag ≠ s.alt_flag ↔
      LCD_ALT_PERIOD ≤ n1 - s.last_alt) ∧
    ((tick s r1 n1 a1 b1 w1).st.alt_flag ≠ s.alt_flag →
      (tick s r1 n1 a1 b1 w1).st.last_alt = n1) ∧
    ((tick s r1 n1 a1 b1 w1).st.alt_flag = s.alt_flag →
      (tick s r1 n1 a1 b1 w1).st.last_alt = s.last_alt) ∧
    ((tick s r1 n1 a1 b1 w1).st.alt_flag ≠ s.alt_flag →
      (tick (tick s r1 n1 a1 b1 w1).st r2 n2 a2 b2 w2).st.alt_flag ≠
        (tick s r1 n1 a1 b1 w1).st.alt_flag →
      4 ≤ n2 - s.last_alt) := by
  obtain ⟨hf1, hl1⟩ := tick_alt s r1 n1 a1 b1 w1
  obtain ⟨hf2, hl2⟩ := tick_alt (tick s r1 n1 a1 b1 w1).st r2 n2 a2 b2 w2
  by_cases hc : LCD_ALT_PERIOD ≤ n1 - s.last_alt
  · rw [if_pos hc] at hf1 hl1
    refine ⟨⟨fun _ => hc, fun _ => by simp [hf1]⟩, fun _ => hl1, ?_, ?_⟩
    · intro he
      rw [hf1] at he
      exact absurd he (by simp)
    · intro _ hflip2
      rw [hf1, hl1] at hf2
      by_cases hc2 : LCD_ALT_PERIOD ≤ n2 - n1
      · have hp : LCD_ALT_PERIOD = (2 : ℚ) := rfl
        rw [hp] at hc hc2
        linarith
      · rw [if_neg hc2] at hf2
        rw [hf1] at hflip2
        exact absurd hf2 hflip2
  · rw [if_neg hc] at hf1 hl1
    exact ⟨⟨fun he => absurd hf1 he, fun hle => absurd hle hc⟩,
      fun he => absurd hf1 he, fun _ => hl1, fun he => absurd hf1 he⟩

/-- Claim C4: with the serial transport present and the write succeeding,
a telemetry line is put on the transport iff the elapsed time since the
last emission is at least `UART_PERIOD` (30 seconds) and a temperature
sample is available this tick; the line is the mode name, the temperature
to one decimal place and the setpoint, comma-separated and
newline-terminated, as in `"heat,68.3,72\n"`. -/
theorem telemetry_emission (s : State) (r : Except SensorError ℚ) (now : ℚ) (a : Bool) :
    ((tick s r now a true true).uartLine.isSome ↔
      (UART_PERIOD ≤ now - s.last_uart ∧ (tempOfSensor r).isSome)) ∧
    (∀ c : ℚ, r = Except.ok c → UART_PERIOD ≤ now - s.last_uart →
      (tick s r now a true true).uartLine =
        some (modeName (stateOf s.state_idx) ++ "," ++ fmt1 (cToF c) ++ "," ++
          toString s.setpoint_f ++ "\n")) ∧
    uartMsg Mode.heat 72 (683 / 10) = "heat,68.3,72\n" := by
  have hline := tick_uartLine s r now a true true
  refine ⟨?_, ?_, ?_⟩
  · rw [hline]
    rcases hr : tempOfSensor r with _ | t
    · simp
    · by_cases hc : UART_PERIOD ≤ now - s.last_uart
      · simp [if_pos hc, hc, uartSend]
      · simp [if_neg hc, hc]
  · intro c hr hc
    rw [hline, hr]
    simp only [tempOfSensor]
    rw [if_pos hc]
    rfl
  · have h : round ((683 / 10 : ℚ) * 10) = 683 := by norm_num [round_eq]
    unfold uartMsg fmt1
    rw [h]
    decide

/-- Claim C5: an iteration whose sensor read fails (the exception is
caught inside the loop, so `tick` is total and returns normally) leaves
both actuator channel outputs exactly as they were at the end of the
previous iteration: the apply step is skipped. -/
theorem sensor_failure_keeps_leds (s : State) (e : SensorError) (now : ℚ)
    (a b w : Bool) :
    (tick s (Except.error e) now a b w).st.red = s.red ∧
    (tick s (Except.error e) now a b w).st.blue = s.blue := by
  obtain ⟨h1, h2⟩ := tick_leds s (Except.error e) now a b w
  exact ⟨h1, h2⟩

/-- Claim C6: the mode-cycle operation is the cyclic permutation
OFF→HEAT→COOL→OFF: from any in-range state index one application advances
to the next mode in that order, and three applications return to the
starting index. -/
theorem mode_cycle_cyclic (s : State) (h : s.state_idx < STATE_ORDER.length) :
    stateOf (cycleMode s).state_idx = nextModeSpec (stateOf s.state_idx) ∧
    (cycleMode (cycleMode (cycleMode s))).state_idx = s.state_idx := by
  have hidx : ∀ u : State, (cycleMode u).state_idx = cycleIdx u.state_idx := by
    intro u
    exact (applyOutputs_frame { u with state_idx := cycleIdx u.state_idx } none).1
  have h3 : s.state_idx < 3 := by simpa [STATE_ORDER] using h
  constructor
  · rw [hidx]
    have hcase : s.state_idx = 0 ∨ s.state_idx = 1 ∨ s.state_idx = 2 := by omega
    rcases hcase with h0 | h0 | h0 <;> rw [h0] <;> rfl
  · rw [hidx, hidx, hidx]
    unfold cycleIdx
    simp only [STATE_ORDER, List.length_cons, List.length_nil]
    omega

/-- Claim C6 witness: cycling three times from the initial (OFF) state. -/
theorem mode_cycle_cyclic_witness :
    stateOf (cycleMode initState).state_idx = nextModeSpec (stateOf initState.state_idx) ∧
    (cycleMode (cycleMode (cycleMode initState))).state_idx = initState.state_idx :=
  mode_cycle_cyclic initState (by norm_num [initState, STATE_ORDER])

/-- Claim C7: the reduced-information actuator path (no temperature
sample, used right after a mode change) drives the channels purely from
the mode - HEAT gives heat solid on and cool off, COOL gives cool solid
on and heat off, OFF gives both off - and is unchanged under any
setpoint. -/
theorem reduced_path_intents (s : State) :
    (((applyOutputs s none).red, (applyOutputs s none).blue) =
      (match stateOf s.state_idx with
        | Mode.heat => (LedState.solidOn, LedState.ledOff)
        | Mode.cool => (LedState.ledOff, LedState.solidOn)
        | Mode.off => (LedState.ledOff, LedState.ledOff))) ∧
    (∀ sp : ℤ,
      ((applyOutputs { s with setpoint_f := sp } none).red,
        (applyOutputs { s with setpoint_f := sp } none).blue) =
      ((applyOutputs s none).red, (applyOutputs s none).blue)) := by
  constructor
  · simp only [applyOutputs]
    rcases h : stateOf s.state_idx <;> simp [h]
  · intro sp
    simp only [applyOutputs]
    rcases h : stateOf s.state_idx <;> simp [h]

end ThermostatModel

namespace ThermostatModel

/-- Bridge between the source's bit operations and plain arithmetic: for
bytes below 256, masking the low nibble of byte 3 and concatenating it
with bytes 4 and 5 is the 20-bit value
`(d3 % 16) * 2^16 + d4 * 2^8 + d5`. -/
theorem decode_bits_eq (d3 d4 d5 : ℕ) (h4 : d4 < 256) (h5 : d5 < 256) :
    (((d3 &&& 0x0F) <<< 16) ||| (d4 <<< 8) ||| d5) &&& 0xFFFFF =
      (d3 % 16) * 2 ^ 16 + d4 * 2 ^ 8 + d5 := by
  have e3 : d3 &&& 0x0F = d3 % 16 := by
    have h : (0x0F : ℕ) = 2 ^ 4 - 1 := by norm_num
    rw [h, Nat.and_pow_two_sub_one_eq_mod, pow_succ]
    norm_num
  have h5' : d5 < 2 ^ 8 := by norm_num [h5]
  have e45 : (d4 <<< 8) ||| d5 = d4 * 2 ^ 8 + d5 := by
    rw [Nat.shiftLeft_eq, Nat.mul_comm d4, ← Nat.mul_add_lt_is_or h5' d4, Nat.mul_comm]
  have hb : d4 * 2 ^ 8 + d5 < 2 ^ 16 := by nlinarith
  have e345 : ((d3 &&& 0x0F) <<< 16) ||| (d4 <<< 8) ||| d5 =
      (d3 % 16) * 2 ^ 16 + d4 * 2 ^ 8 + d5 := by
    rw [Nat.lor_assoc, e45, e3, Nat.shiftLeft_eq, Nat.mul_comm (d3 % 16),
      ← Nat.mul_add_lt_is_or hb (d3 % 16), Nat.mul_comm, Nat.add_assoc]
  rw [e345]
  have hlt : (d3 % 16) * 2 ^ 16 + d4 * 2 ^ 8 + d5 < 2 ^ 20 := by
    have := Nat.mod_lt d3 (y := 16) (by norm_num)
    nlinarith
  have hm : (0xFFFFF : ℕ) = 2 ^ 20 - 1 := by norm_num
  rw [hm, Nat.and_pow_two_sub_one_of_lt_two_pow hlt]

/-- Claim C8: the sensor read errs exactly on a bus fault or a payload
whose length is not 6; on a 6-byte payload with the status byte discarded
it decodes the 20-bit temperature field (low nibble of byte 3, then bytes
4 and 5) and returns `raw * 200 / 2^20 - 50` degrees Celsius, which the
run loop converts to Fahrenheit by `* 9/5 + 32`. -/
theorem sensor_read_decode (data : List ℕ)
    (hlen : data.length = 6) (hbytes : ∀ x ∈ data, x < 256) :
    aht20ReadCelsius (Except.ok data) =
      Except.ok ((((data.getD 3 0 % 16) * 2 ^ 16 + data.getD 4 0 * 2 ^ 8 +
          data.getD 5 0 : ℕ) : ℚ) * 200 / 2 ^ 20 - 50) ∧
    (∀ d : List ℕ, d.length ≠ 6 →
      aht20ReadCelsius (Except.ok d) = Except.error SensorError.shortRead) ∧
    (∀ e : Unit, aht20ReadCelsius (Except.error e) = Except.error SensorError.busFault) ∧
    (∀ c : ℚ, cToF c = c * 9 / 5 + 32) := by
  refine ⟨?_, ?_, fun _ => rfl, fun _ => rfl⟩
  · have h4 : data.getD 4 0 < 256 := by
      rcases data with _ | ⟨b0, _ | ⟨b1, _ | ⟨b2, _ | ⟨b3, _ | ⟨b4, _ | ⟨b5, tl⟩⟩⟩⟩⟩⟩ <;>
        simp_all
    have h5 : data.getD 5 0 < 256 := by
      rcases data with _ | ⟨b0, _ | ⟨b1, _ | ⟨b2, _ | ⟨b3, _ | ⟨b4, _ | ⟨b5, tl⟩⟩⟩⟩⟩⟩ <;>
        simp_all
    simp only [aht20ReadCelsius, if_pos hlen]
    rw [decode_bits_eq _ _ _ h4 h5]
  · intro d hd
    simp [aht20ReadCelsius, hd]

/-- Claim C8 witness: a 6-byte payload whose temperature field is
`0x80000`, giving 50 °C. -/
theorem sensor_read_decode_witness :
    aht20ReadCelsius (Except.ok [0, 0, 0, 8, 0, 0]) =
      Except.ok ((((8 % 16) * 2 ^ 16 + 0 * 2 ^ 8 + 0 : ℕ) : ℚ) * 200 / 2 ^ 20 - 50) :=
  (sensor_read_decode [0, 0, 0, 8, 0, 0] rfl (by decide)).1

/-- Claim C9: when the telemetry period has elapsed and a sample is
available, the last-sent timestamp is set to the current time whatever
the transport does - absent transport and failed write included - so a
failing transport is retried no faster than the period. -/
theorem uart_timestamp_updated (s : State) (c : ℚ) (now : ℚ) (a b w : Bool)
    (h : UART_PERIOD ≤ now - s.last_uart) :
    (tick s (Except.ok c) now a b w).st.last_uart = now ∧
    (tick s (Except.ok c) now a false w).uartLine = none ∧
    (tick s (Except.ok c) now a true false).uartLine = none := by
  refine ⟨?_, ?_, ?_⟩
  · rw [tick_uart_time]
    simp [tempOfSensor, h]
  · rw [tick_uartLine]
    simp [tempOfSensor, uartSend]
  · rw [tick_uartLine]
    simp [tempOfSensor, uartSend]

/-- Claim C9 witness: at 30 seconds from the initial state the timestamp
advances although nothing reaches the transport. -/
theorem uart_timestamp_updated_witness :
    (tick initState (Except.ok 20) 30 true false false).st.last_uart = 30 ∧
    (tick initState (Except.ok 20) 30 true false false).uartLine = none ∧
    (tick initState (Except.ok 20) 30 true true false).uartLine = none :=
  uart_timestamp_updated initState 20 30 true false false
    (by norm_num [initState, UART_PERIOD])

/-- Claim C10: on an iteration with the sensor read failed and at least
`LCD_ALT_PERIOD` elapsed since the last flip, the alternation flag still
toggles and its timestamp still advances, while no display write
happens. -/
theorem outage_phase_freeruns (s : State) (e : SensorError) (now : ℚ)
    (a b w : Bool) (h : LCD_ALT_PERIOD ≤ now - s.last_alt) :
    (tick s (Except.error e) now a b w).st.alt_flag = !s.alt_flag ∧
    (tick s (Except.error e) now a b w).st.last_alt = now ∧
    (tick s (Except.error e) now a b w).lcdWritten = false := by
  obtain ⟨hf, hl⟩ := tick_alt s (Except.error e) now a b w
  rw [if_pos h] at hf hl
  exact ⟨hf, hl, by rw [tick_lcdWritten]; rfl⟩

/-- Claim C10 witness: a failed read two seconds in still flips the flag
and advances the timestamp with no display write. -/
theorem outage_phase_freeruns_witness :
    (tick initState (Except.error SensorError.shortRead) 2 true true true).st.alt_flag =
      !initState.alt_flag ∧
    (tick initState (Except.error SensorError.shortRead) 2 true true true).st.last_alt = 2 ∧
    (tick initState (Except.error SensorError.shortRead) 2 true true true).lcdWritten = false :=
  outage_phase_freeruns initState SensorError.shortRead 2 true true true
    (by norm_num [initState, LCD_ALT_PERIOD])

end ThermostatModel
